import Mathlib

set_option maxHeartbeats 1000000

set_option allowUnsafeReducibility true
attribute [local semireducible] Rat.add Rat.mul Rat.inv Rat.div Rat.sub Rat.neg Rat.ofScientific

/-!
Shallow embedding of the ingestion pipeline in `src/fetch_aqicn.py` of the
`airq_dashboard` repository, together with proofs about its configuration
parsing (`parse_cities`), AQI classification (`aqi_band`), record
normalization (`normalize_record`), per-target fetch loop, log merge
(`pd.concat` + `drop_duplicates` on the `(city, observed_at_utc)` key) and
provenance recording.

Machine floats are modelled as exact rationals (`ℚ`); the IEEE specials
`inf`/`nan` are modelled by a dedicated `PyVal.nan` constructor where the
code branches on them (`pd.isna`).  Timestamps are modelled by a dedicated
`Ts` type; `pandas.NaT` is `Option.none`.
-/

mutual
/-- Python/JSON value as returned by `r.json()` and manipulated by the
script.  `none` is Python `None`, `nan` the IEEE NaN scalar (kept separate
because the code branches on `pd.isna`); other numbers are exact rationals. -/
inductive PyVal where
  | none
  | nan
  | bool (b : Bool)
  | num (q : ℚ)
  | str (s : String)
  | list (xs : PyList)
  | dict (kvs : PyDict)
  deriving DecidableEq
/-- A Python list of `PyVal`s. -/
inductive PyList where
  | nil
  | cons (x : PyVal) (xs : PyList)
  deriving DecidableEq
/-- A Python dict with string keys, in insertion order (keys unique in any
dict produced by JSON decoding). -/
inductive PyDict where
  | nil
  | cons (k : String) (v : PyVal) (rest : PyDict)
  deriving DecidableEq
end

instance {ε α : Type} [DecidableEq ε] [DecidableEq α] : DecidableEq (Except ε α) := fun a b =>
  match a, b with
  | .error e, .error f => if h : e = f then isTrue (by rw [h]) else isFalse (by simp [h])
  | .error _, .ok _ => isFalse (by simp)
  | .ok _, .error _ => isFalse (by simp)
  | .ok x, .ok y => if h : x = y then isTrue (by rw [h]) else isFalse (by simp [h])

/-- Splitting on a single-character separator, Python `s.split(sep)`
semantics: `"" ↦ [""]`, `"a;" ↦ ["a", ""]`. -/
def splitChar (sep : Char) : List Char → List (List Char)
  | [] => [[]]
  | c :: rest =>
    match splitChar sep rest with
    | [] => if c = sep then [[], []] else [[c]]
    | p :: ps => if c = sep then [] :: p :: ps else (c :: p) :: ps

/-- Python `s.split(sep)` for a one-character separator, on `String`. -/
def strSplitOn (sep : Char) (s : String) : List String :=
  (splitChar sep s.toList).map (fun cs => ⟨cs⟩)

/-- Python `s.strip()` (whitespace strip at both ends). -/
def strTrim (s : String) : String :=
  ⟨((s.toList.dropWhile Char.isWhitespace).reverse.dropWhile Char.isWhitespace).reverse⟩

/-- Python `d.get(k)` on a dict: `Option.none` when the key is absent. -/
def PyDict.get? : PyDict → String → Option PyVal
  | .nil, _ => Option.none
  | .cons k v rest, key => if k = key then some v else PyDict.get? rest key

/-- Python truthiness `bool(v)` of a value. -/
def pyTruthy : PyVal → Bool
  | .none => false
  | .nan => true
  | .bool b => b
  | .num q => q != 0
  | .str s => s != ""
  | .list .nil => false
  | .list _ => true
  | .dict .nil => false
  | .dict _ => true

/-- Models `pd.isna(v)` on the scalars the script meets: true exactly for
`None` and NaN. -/
def pyIsNa : PyVal → Bool
  | .none => true
  | .nan => true
  | _ => false

/-- Models `pd.notna(v)`. -/
def pyNotna (v : PyVal) : Bool := !pyIsNa v

/-- Numeric value of a digit string (most significant digit first). -/
def digitsVal (cs : List Char) : ℕ :=
  cs.foldl (fun a c => a * 10 + (c.toNat - 48)) 0

/-- Models Python `float(s)` on a string: optional surrounding whitespace,
optional sign, then `digits`, `digits.digits`, `.digits` or `digits.`,
optionally followed by an exponent marker `e`/`E` with an optional sign and
digits.  Returns `Option.none` where Python raises `ValueError`.  The
`inf`/`nan` literals and underscore digit separators lie outside the exact
rational model and are not accepted. -/
def parseFloat (s : String) : Option ℚ :=
  let cs0 := (strTrim s).toList
  let sgn : ℚ × List Char :=
    match cs0 with
    | '-' :: rest => (-1, rest)
    | '+' :: rest => (1, rest)
    | rest => (1, rest)
  let ip := sgn.2.takeWhile Char.isDigit
  let cs1 := sgn.2.dropWhile Char.isDigit
  let fpcs : List Char × List Char :=
    match cs1 with
    | '.' :: rest => (rest.takeWhile Char.isDigit, rest.dropWhile Char.isDigit)
    | _ => ([], cs1)
  if ip.isEmpty && fpcs.1.isEmpty then Option.none
  else
    let mant : ℚ := sgn.1 * ((digitsVal ip : ℚ) + (digitsVal fpcs.1 : ℚ) / 10 ^ fpcs.1.length)
    match fpcs.2 with
    | [] => some mant
    | c :: rest =>
      if c = 'e' ∨ c = 'E' then
        let esgn : ℤ × List Char :=
          match rest with
          | '-' :: r => (-1, r)
          | '+' :: r => (1, r)
          | r => (1, r)
        let ed := esgn.2.takeWhile Char.isDigit
        let rest2 := esgn.2.dropWhile Char.isDigit
        if ed.isEmpty || !rest2.isEmpty then Option.none
        else some (mant * 10 ^ (esgn.1 * (digitsVal ed : ℤ)))
      else Option.none

/-- Models Python `float(v)` on a `PyVal`: numbers and booleans convert,
strings go through `parseFloat`; `Option.none` models a raised
`TypeError`/`ValueError` (e.g. `float(None)`, `float("-")`, `float([])`). -/
def pyFloat : PyVal → Option ℚ
  | .num q => some q
  | .bool b => some (if b then 1 else 0)
  | .str s => parseFloat s
  | _ => Option.none

/-- Category table of `aqi_band` (the `if`/`elif` chain of source lines
29-34), on an exact rational index value. -/
def bandOf (aqi : ℚ) : String × String :=
  if aqi ≤ 50 then ("Good", "0-50")
  else if aqi ≤ 100 then ("Moderate", "51-100")
  else if aqi ≤ 150 then ("Unhealthy for Sensitive Groups", "101-150")
  else if aqi ≤ 200 then ("Unhealthy", "151-200")
  else if aqi ≤ 300 then ("Very Unhealthy", "201-300")
  else ("Hazardous", "300+")

/-- `aqi_band(aqi)` from the source: the guard `aqi is None or pd.isna(aqi)`
short-circuits to `("Unknown", "n/a")`; otherwise `float(aqi)` runs (raising
`ValueError` on a non-convertible value, modelled as `.error`) and the band
table applies. -/
def aqi_band (aqi : PyVal) : Except String (String × String) :=
  if pyIsNa aqi then .ok ("Unknown", "n/a")
  else
    match pyFloat aqi with
    | some q => .ok (bandOf q)
    | Option.none => .error "ValueError: could not convert value to float"

/-- Python dict assignment `out[name] = v`: replace the value in place when
the key exists (keeping insertion order), else append. -/
def upsert (m : List (String × ℚ × ℚ)) (k : String) (v : ℚ × ℚ) :
    List (String × ℚ × ℚ) :=
  if m.any (fun p => p.1 == k) then
    m.map (fun p => if p.1 == k then (k, v) else p)
  else m ++ [(k, v)]

/-- One `item` of the semicolon-split configuration string: `.ok Option.none`
models the `continue` on a blank item, `.error` a raised `ValueError` (the
entry is not of the form `name:lat,lon` with two float coordinates). -/
def parseEntry (item : String) : Except String (Option (String × ℚ × ℚ)) :=
  if strTrim item = "" then .ok Option.none
  else
    match strSplitOn ':' item with
    | [name, coords] =>
      match strSplitOn ',' coords with
      | [a, b] =>
        match parseFloat a, parseFloat b with
        | some la, some lo => .ok (some (strTrim name, la, lo))
        | _, _ => .error "ValueError: could not convert string to float"
      | _ => .error "ValueError: wrong number of values to unpack"
    | _ => .error "ValueError: wrong number of values to unpack"

/-- Loop of `parse_cities` over the `;`-split items, accumulating the ordered
mapping. -/
def parseEntries :
    List String → List (String × ℚ × ℚ) → Except String (List (String × ℚ × ℚ))
  | [], acc => .ok acc
  | it :: rest, acc =>
    match parseEntry it with
    | .error e => .error e
    | .ok Option.none => parseEntries rest acc
    | .ok (some (n, la, lo)) => parseEntries rest (upsert acc n (la, lo))

/-- Built-in default target, `{"Perth": (-31.95, 115.86)}`. -/
def defaultCities : List (String × ℚ × ℚ) := [("Perth", -31.95, 115.86)]

/-- `parse_cities(env_str)`: a falsy input (absent, or the empty string)
falls back to the built-in default; otherwise the `;`-split items are parsed
in order, later duplicate names overwriting earlier ones. -/
def parse_cities (env : Option String) :
    Except String (List (String × ℚ × ℚ)) :=
  match env with
  | Option.none => .ok defaultCities
  | some s => if s = "" then .ok defaultCities else parseEntries (strSplitOn ';' s) []

/-- Helper to build a `PyDict` from a Lean list (test inputs only). -/
def PyDict.ofList : List (String × PyVal) → PyDict
  | [] => .nil
  | (k, v) :: rest => .cons k v (PyDict.ofList rest)

/-- Helper to build a `PyList` from a Lean list (test inputs only). -/
def PyList.ofList : List PyVal → PyList
  | [] => .nil
  | x :: rest => .cons x (PyList.ofList rest)

/-- Timestamp instant as parsed by `pd.to_datetime`; `datetime` is a parsed
calendar string, `epochNs` a numeric input interpreted on the epoch scale.
`pandas.NaT`, the invalid/missing marker, is `Option.none` at use sites. -/
inductive Ts where
  | datetime (y mo d h mi s : ℕ)
  | epochNs (q : ℚ)
  deriving DecidableEq

/-- Parses the WAQI timestamp shape `"YYYY-MM-DD HH:MM:SS"` with calendar
field validation; any other string is unparsable here.  This models the
format actually served in `data.time.s`; `pandas.to_datetime` accepts
further formats, none of which the claims depend on.  Returns `Option.none`
(NaT) exactly when parsing fails, per `errors="coerce"`. -/
def parseTs (s : String) : Option Ts :=
  match s.toList with
  | [y1, y2, y3, y4, '-', m1, m2, '-', d1, d2, ' ', h1, h2, ':', n1, n2, ':', s1, s2] =>
    if ([y1, y2, y3, y4, m1, m2, d1, d2, h1, h2, n1, n2, s1, s2].all Char.isDigit) then
      let mo := digitsVal [m1, m2]
      let d := digitsVal [d1, d2]
      let h := digitsVal [h1, h2]
      let mi := digitsVal [n1, n2]
      let sec := digitsVal [s1, s2]
      if 1 ≤ mo ∧ mo ≤ 12 ∧ 1 ≤ d ∧ d ≤ 31 ∧ h ≤ 23 ∧ mi ≤ 59 ∧ sec ≤ 59 then
        some (.datetime (digitsVal [y1, y2, y3, y4]) mo d h mi sec)
      else Option.none
    else Option.none
  | _ => Option.none

/-- Models `pd.to_datetime(ts, utc=True, errors="coerce")` on the value
`t.get("s")`: `None`, NaN and unparsable values coerce to NaT
(`Option.none`); numbers are epoch instants. -/
def pdToDatetime : PyVal → Option Ts
  | .none => Option.none
  | .nan => Option.none
  | .str s => parseTs s
  | .num q => some (.epochNs q)
  | _ => Option.none

/-- One tidy row as built by `normalize_record` (lines 60-74), the unit the
snapshot and the log are made of.  The `observed_at_utc` column holds a
parsed instant or NaT. -/
structure Row where
  city : PyVal
  aqi : PyVal
  observed_at_utc : Option Ts
  lat : PyVal
  lon : PyVal
  station_name : PyVal
  dominentpol : PyVal
  pm25 : PyVal
  pm10 : PyVal
  o3 : PyVal
  no2 : PyVal
  so2 : PyVal
  co : PyVal
  nh3 : PyVal
  aqi_category : String
  aqi_range : String
  deriving DecidableEq

/-- Python `x or {}` followed by use of the result as a dict: a falsy value
collapses to the empty dict; on a truthy non-dict the code raises
(`AttributeError`/`TypeError`) as soon as it calls dict methods on it. -/
def orEmptyDict (v : PyVal) : Except String PyDict :=
  if pyTruthy v then
    match v with
    | .dict kvs => .ok kvs
    | _ => .error "AttributeError: value is not a dict"
  else .ok .nil

/-- Total companion of `orEmptyDict`, agreeing with it wherever that one
succeeds; used to state extraction lemmas. -/
def orEmptyDictD (v : PyVal) : PyDict :=
  match orEmptyDict v with
  | .ok kvs => kvs
  | .error _ => .nil

/-- Line 50, the comprehension
`p = {k: v.get("v") for k, v in iaqi.items() if isinstance(v, dict)}`. -/
def pollutantVals : PyDict → PyDict
  | .nil => .nil
  | .cons k v rest =>
    match v with
    | .dict kvs => .cons k ((kvs.get? "v").getD .none) (pollutantVals rest)
    | _ => pollutantVals rest

/-- Lines 56-59: station coordinates from `data.city.geo` when that is a
two-element list, else both stay `None` pending backfill. -/
def geoOf (cinfo : PyDict) : PyVal × PyVal :=
  match cinfo.get? "geo" with
  | some (.list (.cons a (.cons b .nil))) => (a, b)
  | _ => (.none, .none)

/-- Line 61: `city_label or cinfo.get("name")` — a falsy (empty) label falls
back to the API-reported station name. -/
def cityOf (city_label : String) (cinfo : PyDict) : PyVal :=
  if city_label = "" then (cinfo.get? "name").getD .none else .str city_label

/-- Line 47, `d = j["data"]` and the subsequent use of `d` as a dict: a
missing key raises `KeyError`, a non-dict value raises on the first
`d.get` attribute access. -/
def getDataDict (jd : PyDict) : Except String PyDict :=
  match jd.get? "data" with
  | Option.none => .error "KeyError: data"
  | some (.dict d) => .ok d
  | some _ => .error "AttributeError: data is not a dict"

/-- `normalize_record(j, city_label)`: `.ok Option.none` when the payload
status is not `"ok"` (record dropped); `.error` when the Python code would
raise (non-dict payload, missing `"data"` key, dict methods on a truthy
non-dict, `float()` on a non-convertible index value) — such exceptions are
caught by the per-target handler in `main`; otherwise the tidy row. -/
def normalize_record (j : PyVal) (city_label : String) : Except String (Option Row) :=
  match j with
  | .dict jd =>
    if jd.get? "status" ≠ some (.str "ok") then .ok Option.none
    else
      match getDataDict jd with
      | .error e => .error e
      | .ok d =>
          match orEmptyDict ((d.get? "iaqi").getD (.dict .nil)) with
          | .error e => .error e
          | .ok iaqi =>
            match orEmptyDict ((d.get? "time").getD (.dict .nil)) with
            | .error e => .error e
            | .ok t =>
              match orEmptyDict ((d.get? "city").getD (.dict .nil)) with
              | .error e => .error e
              | .ok cinfo =>
                match aqi_band ((d.get? "aqi").getD .none) with
                | .error e => .error e
                | .ok band =>
                  .ok (some
                    { city := cityOf city_label cinfo
                      aqi := (d.get? "aqi").getD .none
                      observed_at_utc := pdToDatetime ((t.get? "s").getD .none)
                      lat := (geoOf cinfo).1
                      lon := (geoOf cinfo).2
                      station_name := (cinfo.get? "name").getD .none
                      dominentpol := (d.get? "dominentpol").getD .none
                      pm25 := ((pollutantVals iaqi).get? "pm25").getD .none
                      pm10 := ((pollutantVals iaqi).get? "pm10").getD .none
                      o3 := ((pollutantVals iaqi).get? "o3").getD .none
                      no2 := ((pollutantVals iaqi).get? "no2").getD .none
                      so2 := ((pollutantVals iaqi).get? "so2").getD .none
                      co := ((pollutantVals iaqi).get? "co").getD .none
                      nh3 := ((pollutantVals iaqi).get? "nh3").getD .none
                      aqi_category := band.1
                      aqi_range := band.2 })
  | _ => .error "AttributeError: json payload is not a dict"

/-- Lines 87-88 of `main`: backfill a record's coordinates from the
configured target whenever `pd.notna` rejects the normalized value. -/
def backfill (rec : Row) (lat lon : ℚ) : Row :=
  { rec with
    lat := if pyNotna rec.lat then rec.lat else .num lat
    lon := if pyNotna rec.lon then rec.lon else .num lon }

/-- A configured fetch target, one entry of `CITIES`. -/
structure Target where
  name : String
  lat : ℚ
  lon : ℚ

/-- Line 38, the request URL of `fetch_geo`: the base endpoint templated
with the coordinates and the authorization token. -/
def mkUrl (lat lon : ℚ) (token : String) : String :=
  "https://api.waqi.info/feed/geo:" ++ toString lat ++ ";" ++ toString lon
    ++ "/" ++ ("?token=" ++ token)

/-- One iteration of the fetch loop of `main` (lines 80-92).  The oracle
component of the pair is what `fetch_geo` did for this target; `.error`
models a raised `requests` exception (non-success HTTP status or network
failure), caught by the per-target handler.  On success the URL is recorded
first; a later normalization exception is caught by the same handler, after
the URL was already appended. -/
def stepTarget (token : String) (acc : List Row × List String)
    (t : Target × Except String PyVal) : List Row × List String :=
  match t.2 with
  | .error _ => acc
  | .ok js =>
    let urls := acc.2 ++ [mkUrl t.1.lat t.1.lon token]
    match normalize_record js t.1.name with
    | .error _ => (acc.1, urls)
    | .ok Option.none => (acc.1, urls)
    | .ok (some rec) => (acc.1 ++ [backfill rec t.1.lat t.1.lon], urls)

/-- The fetch loop of `main` over all configured targets, returning the
batch of records and the provenance URL list. -/
def runTargets (token : String) (ts : List (Target × Except String PyVal)) :
    List Row × List String :=
  ts.foldl (stepTarget token) ([], [])

/-- Deduplication key of the log merge, the `["city", "observed_at_utc"]`
column subset of `drop_duplicates`.  `pandas` treats NaT/NaN key entries as
duplicates of one another, which structural equality models. -/
def rowKey (r : Row) : PyVal × Option Ts := (r.city, r.observed_at_utc)

/-- `DataFrame.drop_duplicates(subset=["city", "observed_at_utc"])` with the
default `keep="first"`: keep each row whose key was not seen earlier. -/
def dedupByKey : List Row → List (PyVal × Option Ts) → List Row
  | [], _ => []
  | r :: rs, seen =>
    if rowKey r ∈ seen then dedupByKey rs seen
    else r :: dedupByKey rs (rowKey r :: seen)

/-- Lines 100-111 of `main`: with no pre-existing log the batch is written
verbatim; otherwise the old log and the new batch are concatenated (old log
first) and deduplicated by `(city, observed_at_utc)`. -/
def merge : Option (List Row) → List Row → List Row
  | Option.none, batch => batch
  | some old, batch => dedupByKey (old ++ batch) []

/-- Line 115: `"\n".join(urls)`, the content written to
`data/last_urls.txt`. -/
def joinLines : List String → String
  | [] => ""
  | [u] => u
  | u :: rest => u ++ "\n" ++ joinLines rest

/-- First row of the merged log carrying the given key, the row a consumer
reading the deduplicated log sees for that key. -/
def findByKey (rows : List Row) (k : PyVal × Option Ts) : Option Row :=
  rows.find? (fun r => rowKey r == k)

/-- Severity rank of the band names in the order of the source's `if`/`elif`
chain, used to state monotonicity of the classification. -/
def catRank (c : String) : ℕ :=
  if c = "Good" then 0
  else if c = "Moderate" then 1
  else if c = "Unhealthy for Sensitive Groups" then 2
  else if c = "Unhealthy" then 3
  else if c = "Very Unhealthy" then 4
  else 5

/-- The raw value `data.time.s` reaches `pd.to_datetime` with (following the
same path as `normalize_record`, with inert defaults on paths where that
function raises). -/
def tsValOf (j : PyVal) : PyVal :=
  match j with
  | .dict jd =>
    match getDataDict jd with
    | .ok d => ((orEmptyDictD ((d.get? "time").getD (.dict .nil))).get? "s").getD .none
    | .error _ => .none
  | _ => .none

/-- The `data.city` dict `normalize_record` reads coordinates from
(following the same path as that function, with inert defaults on paths
where it raises). -/
def cinfoOf (j : PyVal) : PyDict :=
  match j with
  | .dict jd =>
    match getDataDict jd with
    | .ok d => orEmptyDictD ((d.get? "city").getD (.dict .nil))
    | .error _ => .nil
  | _ => .nil

/-- Keys seen by the `drop_duplicates` scan after consuming `xs`. -/
def seenAfter : List Row → List (PyVal × Option Ts) → List (PyVal × Option Ts)
  | [], seen => seen
  | r :: rs, seen =>
    if rowKey r ∈ seen then seenAfter rs seen
    else seenAfter rs (rowKey r :: seen)

/-- The whole run gated on configuration parsing: `parse_cities` runs at
module load (line 23), so a configuration error aborts before any fetch of
`main` is attempted. -/
def runPipeline (env : Option String) (token : String)
    (fetchOracle : String → ℚ → ℚ → Except String PyVal) :
    Except String (List Row × List String) :=
  match parse_cities env with
  | .error e => .error e
  | .ok cities =>
    .ok (runTargets token
      (cities.map (fun c => (⟨c.1, c.2.1, c.2.2⟩, fetchOracle c.1 c.2.1 c.2.2))))

/-- Row literal used in concrete merge scenarios. -/
def mkRow (city aqi : PyVal) (obs : Option Ts) (cat rng : String) : Row :=
  { city := city, aqi := aqi, observed_at_utc := obs,
    lat := .none, lon := .none, station_name := .none, dominentpol := .none,
    pm25 := .none, pm10 := .none, o3 := .none, no2 := .none, so2 := .none,
    co := .none, nh3 := .none, aqi_category := cat, aqi_range := rng }

/-- An old-log row for city `"X"` at `2025-09-04 11:00:00`. -/
def rowOldX : Row := mkRow (.str "X") (.num 10) (some (.datetime 2025 9 4 11 0 0)) "Good" "0-50"

/-- A new-batch row for the same `(city, observed_at_utc)` key as `rowOldX`
but different content. -/
def rowNewX : Row := mkRow (.str "X") (.num 99) (some (.datetime 2025 9 4 11 0 0)) "Moderate" "51-100"

/-- Payload with an unparsable source timestamp and index value 10. -/
def jBadTs1 : PyVal := .dict (PyDict.ofList [
  ("status", .str "ok"),
  ("data", .dict (PyDict.ofList [
    ("aqi", .num 10),
    ("time", .dict (PyDict.ofList [("s", .str "not a timestamp")]))]))])

/-- Payload with an unparsable source timestamp and index value 99. -/
def jBadTs2 : PyVal := .dict (PyDict.ofList [
  ("status", .str "ok"),
  ("data", .dict (PyDict.ofList [
    ("aqi", .num 99),
    ("time", .dict (PyDict.ofList [("s", .str "not a timestamp")]))]))])

/-- The row `normalize_record jBadTs1 "X"` produces: timestamp marked NaT. -/
def rowBadTs1 : Row := mkRow (.str "X") (.num 10) Option.none "Good" "0-50"

/-- The row `normalize_record jBadTs2 "X"` produces: timestamp marked NaT. -/
def rowBadTs2 : Row := mkRow (.str "X") (.num 99) Option.none "Moderate" "51-100"

/-- Payload whose `data.city` has a station name but no `geo`
coordinates. -/
def jNoGeo : PyVal := .dict (PyDict.ofList [
  ("status", .str "ok"),
  ("data", .dict (PyDict.ofList [
    ("aqi", .num 42),
    ("time", .dict (PyDict.ofList [("s", .str "2025-09-04 11:00:00")])),
    ("city", .dict (PyDict.ofList [("name", .str "Perth CBD")]))]))])

/-- The row `normalize_record jNoGeo "Perth"` produces: coordinates still
`None`, pending backfill. -/
def rowNoGeo : Row :=
  { city := .str "Perth", aqi := .num 42,
    observed_at_utc := some (.datetime 2025 9 4 11 0 0),
    lat := .none, lon := .none, station_name := .str "Perth CBD",
    dominentpol := .none,
    pm25 := .none, pm10 := .none, o3 := .none, no2 := .none, so2 := .none,
    co := .none, nh3 := .none, aqi_category := "Good", aqi_range := "0-50" }

/-- Batch row used in the idempotence witness. -/
def rowW6 : Row := mkRow (.str "W6") (.num 55) (some (.datetime 2025 9 4 12 0 0)) "Moderate" "51-100"

/-- Old-log row used in the idempotence witness. -/
def rowW6b : Row := mkRow (.str "W6b") (.num 10) (some (.datetime 2025 9 4 12 0 0)) "Good" "0-50"

/-- Batch row used in the key-preservation witness. -/
def rowW7 : Row := mkRow (.str "W7") (.num 20) Option.none "Good" "0-50"

/-- Concrete single-target run used in the provenance witness. -/
def tsW10 : List (Target × Except String PyVal) :=
  [(⟨"Perth", -31.95, 115.86⟩, .ok jNoGeo)]

theorem dedupByKey_append (xs ys : List Row) (seen : List (PyVal × Option Ts)) :
    dedupByKey (xs ++ ys) seen
      = dedupByKey xs seen ++ dedupByKey ys (seenAfter xs seen) := by
  induction xs generalizing seen with
  | nil => simp [dedupByKey, seenAfter]
  | cons r rs ih =>
    simp only [List.cons_append, dedupByKey, seenAfter]
    split_ifs with h
    · exact ih seen
    · simp [ih]

theorem mem_seenAfter (xs : List Row) (seen : List (PyVal × Option Ts))
    (k : PyVal × Option Ts) :
    k ∈ seenAfter xs seen ↔ k ∈ seen ∨ k ∈ xs.map rowKey := by
  induction xs generalizing seen with
  | nil => simp [seenAfter]
  | cons r rs ih =>
    simp only [seenAfter, List.map_cons, List.mem_cons]
    split_ifs with h
    · rw [ih]
      constructor
      · rintro (h1 | h2)
        · exact Or.inl h1
        · exact Or.inr (Or.inr h2)
      · rintro (h1 | h1 | h2)
        · exact Or.inl h1
        · exact Or.inl (h1 ▸ h)
        · exact Or.inr h2
    · rw [ih]
      simp only [List.mem_cons]
      tauto

theorem mem_keys_dedup (xs : List Row) (seen : List (PyVal × Option Ts))
    (k : PyVal × Option Ts) :
    k ∈ (dedupByKey xs seen).map rowKey ↔ k ∈ xs.map rowKey ∧ k ∉ seen := by
  induction xs generalizing seen with
  | nil => simp [dedupByKey]
  | cons r rs ih =>
    simp only [dedupByKey, List.map_cons, List.mem_cons]
    split_ifs with h
    · rw [ih]
      by_cases hk : k = rowKey r
      · subst hk
        simp [h]
      · simp [hk]
    · simp only [List.map_cons, List.mem_cons, ih, List.mem_cons, not_or]
      by_cases hk : k = rowKey r
      · subst hk
        simp [h]
      · simp [hk]

theorem dedup_eq_self (xs : List Row) (seen : List (PyVal × Option Ts))
    (h1 : (xs.map rowKey).Nodup) (h2 : ∀ k ∈ xs.map rowKey, k ∉ seen) :
    dedupByKey xs seen = xs := by
  induction xs generalizing seen with
  | nil => rfl
  | cons r rs ih =>
    simp only [List.map_cons, List.nodup_cons] at h1
    simp only [dedupByKey]
    rw [if_neg (h2 (rowKey r) (by simp))]
    congr 1
    refine ih _ h1.2 ?_
    intro k hk
    simp only [List.mem_cons, not_or]
    exact ⟨fun he => h1.1 (he ▸ hk), h2 k (by simp [hk])⟩

theorem dedup_nil_of_seen (xs : List Row) (seen : List (PyVal × Option Ts))
    (h : ∀ k ∈ xs.map rowKey, k ∈ seen) :
    dedupByKey xs seen = [] := by
  induction xs generalizing seen with
  | nil => rfl
  | cons r rs ih =>
    simp only [dedupByKey]
    rw [if_pos (h (rowKey r) (by simp))]
    exact ih seen (fun k hk => h k (by simp [hk]))

theorem nodup_keys_dedup (xs : List Row) (seen : List (PyVal × Option Ts)) :
    ((dedupByKey xs seen).map rowKey).Nodup := by
  induction xs generalizing seen with
  | nil => simp [dedupByKey]
  | cons r rs ih =>
    simp only [dedupByKey]
    split_ifs with h
    · exact ih seen
    · simp only [List.map_cons, List.nodup_cons]
      refine ⟨?_, ih _⟩
      rw [mem_keys_dedup]
      rintro ⟨-, h2⟩
      exact h2 (by simp)

theorem findByKey_dedup (xs : List Row) (seen : List (PyVal × Option Ts))
    (k : PyVal × Option Ts) (hk : k ∉ seen) :
    findByKey (dedupByKey xs seen) k = findByKey xs k := by
  induction xs generalizing seen with
  | nil => rfl
  | cons r rs ih =>
    simp only [dedupByKey]
    split_ifs with h
    · have htest : (rowKey r == k) = false := by
        simp only [beq_eq_false_iff_ne, ne_eq]
        intro he
        exact hk (he ▸ h)
      rw [ih seen hk]
      simp only [findByKey]
      rw [List.find?_cons_of_neg _ (by simp [htest])]
    · by_cases he : rowKey r = k
      · simp only [findByKey]
        rw [List.find?_cons_of_pos _ (by simp [he]), List.find?_cons_of_pos _ (by simp [he])]
      · simp only [findByKey]
        rw [List.find?_cons_of_neg _ (by simp [he]), List.find?_cons_of_neg _ (by simp [he])]
        apply ih
        simp only [List.mem_cons, not_or]
        exact ⟨fun hc => he hc.symm, hk⟩

theorem findByKey_append_left (xs ys : List Row) (k : PyVal × Option Ts)
    (h : k ∈ xs.map rowKey) :
    findByKey (xs ++ ys) k = findByKey xs k := by
  have hs : (xs.find? (fun r => rowKey r == k)).isSome := by
    rw [List.find?_isSome]
    rcases List.mem_map.mp h with ⟨r, hr, rfl⟩
    exact ⟨r, hr, by simp⟩
  rcases Option.isSome_iff_exists.mp hs with ⟨r, hr⟩
  simp [findByKey, List.find?_append, hr]

theorem mem_of_mem_dedup (xs : List Row) (seen : List (PyVal × Option Ts))
    (r : Row) (h : r ∈ dedupByKey xs seen) : r ∈ xs := by
  induction xs generalizing seen with
  | nil => exact absurd h (by simp [dedupByKey])
  | cons x rs ih =>
    simp only [dedupByKey] at h
    split_ifs at h with hx
    · exact List.mem_cons_of_mem _ (ih _ h)
    · rcases List.mem_cons.mp h with h1 | h2
      · exact h1 ▸ List.mem_cons_self _ _
      · exact List.mem_cons_of_mem _ (ih _ h2)

/-- C1 counterexample: for a key present in both the existing log and the
new batch, the merged log keeps the existing log's row — `drop_duplicates`
defaults to `keep="first"` and line 106 concatenates the old log first — so
the batch's row for that key is dropped, contradicting the claimed
last-write-wins. -/
theorem merge_conflict_keeps_old_counterexample :
    rowKey rowOldX = rowKey rowNewX ∧ rowOldX ≠ rowNewX ∧
    merge (some [rowOldX]) [rowNewX] = [rowOldX] := by decide

/-- C1 (amended): `merge` deduplicates the union of the existing log and the
new batch by the `(city, observed_at_utc)` key, and for any key already
present in the existing log — in particular a key present in both inputs —
the merged result carries the existing log's first row for that key
(first-write-wins on conflict), not the batch's row. -/
theorem merge_dedup_existing_wins :
    (∀ L B : List Row, ((merge (some L) B).map rowKey).Nodup) ∧
    (∀ L B : List Row, ∀ r ∈ merge (some L) B, r ∈ L ∨ r ∈ B) ∧
    (∀ (L B : List Row) (k : PyVal × Option Ts), k ∈ L.map rowKey →
      findByKey (merge (some L) B) k = findByKey L k) := by
  refine ⟨?_, ?_, ?_⟩
  · intro L B
    exact nodup_keys_dedup _ _
  · intro L B r hr
    exact List.mem_append.mp (mem_of_mem_dedup _ _ _ hr)
  · intro L B k hk
    show findByKey (dedupByKey (L ++ B) []) k = findByKey L k
    rw [findByKey_dedup _ _ _ (by simp), findByKey_append_left _ _ _ hk]

/-- C1 witness: the amended statement instantiated on the concrete conflict
scenario of the counterexample. -/
theorem merge_dedup_existing_wins_witness :
    findByKey (merge (some [rowOldX]) [rowNewX]) (rowKey rowOldX)
        = findByKey [rowOldX] (rowKey rowOldX) ∧
    (rowOldX ∈ [rowOldX] ∨ rowOldX ∈ [rowNewX]) :=
  ⟨merge_dedup_existing_wins.2.2 [rowOldX] [rowNewX] (rowKey rowOldX) (by decide),
   merge_dedup_existing_wins.2.1 [rowOldX] [rowNewX] rowOldX (by decide)⟩

/-- C6: re-running the merge with the same batch does not change (in
particular does not grow) the log, for any batch whose
`(city, observed_at_utc)` keys are unique — which holds of every fetched
batch, since it carries at most one row per configured city. -/
theorem merge_idempotent (L : Option (List Row)) (B : List Row)
    (hB : (B.map rowKey).Nodup) :
    merge (some (merge L B)) B = merge L B := by
  cases L with
  | none =>
    show dedupByKey (B ++ B) [] = B
    rw [dedupByKey_append, dedup_eq_self B [] hB (by simp)]
    rw [dedup_nil_of_seen]
    · simp
    · intro k hk
      rw [mem_seenAfter]
      exact Or.inr hk
  | some old =>
    show dedupByKey (dedupByKey (old ++ B) [] ++ B) [] = dedupByKey (old ++ B) []
    rw [dedupByKey_append, dedup_eq_self _ [] (nodup_keys_dedup _ _) (by simp)]
    have hnil : dedupByKey B (seenAfter (dedupByKey (old ++ B) []) []) = [] := by
      apply dedup_nil_of_seen
      intro k hk
      rw [mem_seenAfter, mem_keys_dedup]
      right
      refine ⟨?_, by simp⟩
      simp only [List.map_append, List.mem_append]
      exact Or.inr hk
    rw [hnil]
    simp

/-- C6 witness: idempotence on a concrete one-row log and one-row batch. -/
theorem merge_idempotent_witness :
    (([rowW6].map rowKey).Nodup) ∧
    merge (some (merge (some [rowW6b]) [rowW6])) [rowW6] = merge (some [rowW6b]) [rowW6] :=
  ⟨by simp, merge_idempotent (some [rowW6b]) [rowW6] (by simp)⟩

/-- C7: the merge loses no key — a `(city, observed_at_utc)` key is in the
merged log iff it is in the existing log or in the batch (so in particular
keys present in exactly one input survive); a missing log file behaves as
the empty log, the batch being written verbatim, and a batch with unique
keys yields a log with unique keys (no duplicates introduced). -/
theorem merge_preserves_keys :
    (∀ (L B : List Row) (k : PyVal × Option Ts),
        k ∈ (merge (some L) B).map rowKey ↔ k ∈ L.map rowKey ∨ k ∈ B.map rowKey) ∧
    (∀ B : List Row, merge Option.none B = B) ∧
    (∀ B : List Row, (B.map rowKey).Nodup → ((merge Option.none B).map rowKey).Nodup) := by
  refine ⟨?_, fun B => rfl, fun B h => h⟩
  intro L B k
  show k ∈ (dedupByKey (L ++ B) []).map rowKey ↔ _
  rw [mem_keys_dedup]
  simp

/-- C7 witness: the no-prior-log branch instantiated on a concrete
singleton batch. -/
theorem merge_preserves_keys_witness :
    ((merge Option.none [rowW7]).map rowKey).Nodup :=
  merge_preserves_keys.2.2 [rowW7] (by simp)

/-- C3: the classification bands of `aqi_band` are upper-edge inclusive as
listed — in particular `classify(150)` is "Unhealthy for Sensitive Groups" —
and severity is monotone non-decreasing in the index value. -/
theorem aqi_band_bands_monotone :
    (∀ v : ℚ, v ≤ 50 → aqi_band (.num v) = .ok ("Good", "0-50")) ∧
    (∀ v : ℚ, 50 < v → v ≤ 100 → aqi_band (.num v) = .ok ("Moderate", "51-100")) ∧
    (∀ v : ℚ, 100 < v → v ≤ 150 →
      aqi_band (.num v) = .ok ("Unhealthy for Sensitive Groups", "101-150")) ∧
    (∀ v : ℚ, 150 < v → v ≤ 200 → aqi_band (.num v) = .ok ("Unhealthy", "151-200")) ∧
    (∀ v : ℚ, 200 < v → v ≤ 300 → aqi_band (.num v) = .ok ("Very Unhealthy", "201-300")) ∧
    (∀ v : ℚ, 300 < v → aqi_band (.num v) = .ok ("Hazardous", "300+")) ∧
    aqi_band (.num 150) = .ok ("Unhealthy for Sensitive Groups", "101-150") ∧
    (∀ v w : ℚ, v ≤ w → catRank (bandOf v).1 ≤ catRank (bandOf w).1) := by
  refine ⟨?_, ?_, ?_, ?_, ?_, ?_, by decide, ?_⟩
  · intro v h
    simp [aqi_band, pyIsNa, pyFloat, bandOf, h]
  · intro v h1 h2
    simp [aqi_band, pyIsNa, pyFloat, bandOf, h2, not_le.mpr h1]
  · intro v h1 h2
    have g1 : ¬ v ≤ 50 := not_le.mpr (by linarith)
    simp [aqi_band, pyIsNa, pyFloat, bandOf, h2, g1, not_le.mpr h1]
  · intro v h1 h2
    have g1 : ¬ v ≤ 50 := not_le.mpr (by linarith)
    have g2 : ¬ v ≤ 100 := not_le.mpr (by linarith)
    simp [aqi_band, pyIsNa, pyFloat, bandOf, h2, g1, g2, not_le.mpr h1]
  · intro v h1 h2
    have g1 : ¬ v ≤ 50 := not_le.mpr (by linarith)
    have g2 : ¬ v ≤ 100 := not_le.mpr (by linarith)
    have g3 : ¬ v ≤ 150 := not_le.mpr (by linarith)
    simp [aqi_band, pyIsNa, pyFloat, bandOf, h2, g1, g2, g3, not_le.mpr h1]
  · intro v h
    have g1 : ¬ v ≤ 50 := not_le.mpr (by linarith)
    have g2 : ¬ v ≤ 100 := not_le.mpr (by linarith)
    have g3 : ¬ v ≤ 150 := not_le.mpr (by linarith)
    have g4 : ¬ v ≤ 200 := not_le.mpr (by linarith)
    simp [aqi_band, pyIsNa, pyFloat, bandOf, g1, g2, g3, g4, not_le.mpr h]
  · intro v w hvw
    unfold bandOf
    split_ifs <;> first | decide | linarith

/-- C3 witness: each band conjunct and the monotonicity conjunct
instantiated at concrete index values. -/
theorem aqi_band_bands_monotone_witness :
    aqi_band (.num 42) = .ok ("Good", "0-50") ∧
    aqi_band (.num 100) = .ok ("Moderate", "51-100") ∧
    aqi_band (.num 101) = .ok ("Unhealthy for Sensitive Groups", "101-150") ∧
    aqi_band (.num 200) = .ok ("Unhealthy", "151-200") ∧
    aqi_band (.num 300) = .ok ("Very Unhealthy", "201-300") ∧
    aqi_band (.num 301) = .ok ("Hazardous", "300+") ∧
    catRank (bandOf 150).1 ≤ catRank (bandOf 151).1 :=
  ⟨aqi_band_bands_monotone.1 42 (by norm_num),
   aqi_band_bands_monotone.2.1 100 (by norm_num) (by norm_num),
   aqi_band_bands_monotone.2.2.1 101 (by norm_num) (by norm_num),
   aqi_band_bands_monotone.2.2.2.1 200 (by norm_num) (by norm_num),
   aqi_band_bands_monotone.2.2.2.2.1 300 (by norm_num) (by norm_num),
   aqi_band_bands_monotone.2.2.2.2.2.1 301 (by norm_num),
   aqi_band_bands_monotone.2.2.2.2.2.2.2 150 151 (by norm_num)⟩

/-- C4 counterexample: `aqi_band` is not total on non-numeric input — on the
string value `"-"` the guard `aqi is None or pd.isna(aqi)` is false and
`float("-")` raises `ValueError`, so the call fails instead of returning
`("Unknown", "n/a")`. -/
theorem aqi_band_nonnumeric_counterexample :
    aqi_band (.str "-") = .error "ValueError: could not convert value to float" ∧
    aqi_band (.str "-") ≠ .ok ("Unknown", "n/a") := by decide

/-- C4 (amended): `aqi_band` is a pure total function on missing (`None`),
NaN and numeric inputs — `("Unknown", "n/a")` for `None`/NaN and a band for
every number — but a non-numeric value that `float()` cannot convert raises
`ValueError` (caught upstream by the per-target handler of `main`) instead
of yielding `("Unknown", "n/a")`. -/
theorem aqi_band_total_on_declared_domain :
    aqi_band .none = .ok ("Unknown", "n/a") ∧
    aqi_band .nan = .ok ("Unknown", "n/a") ∧
    (∀ q : ℚ, aqi_band (.num q) = .ok (bandOf q)) ∧
    aqi_band (.str "-") = .error "ValueError: could not convert value to float" := by
  refine ⟨by decide, by decide, ?_, by decide⟩
  intro q
  simp [aqi_band, pyIsNa, pyFloat]

theorem orEmptyDictD_eq (v : PyVal) (kvs : PyDict) (h : orEmptyDict v = .ok kvs) :
    orEmptyDictD v = kvs := by
  simp [orEmptyDictD, h]

theorem normalize_fields (j : PyVal) (lbl : String) (rec : Row)
    (h : normalize_record j lbl = .ok (some rec)) :
    rec.observed_at_utc = pdToDatetime (tsValOf j) ∧
    rec.lat = (geoOf (cinfoOf j)).1 ∧ rec.lon = (geoOf (cinfoOf j)).2 := by
  cases j <;> simp only [normalize_record] at h <;> try exact Except.noConfusion h
  rename_i jd
  by_cases hstatus : jd.get? "status" ≠ some (.str "ok")
  · rw [if_pos hstatus] at h
    exact absurd (Except.ok.inj h) (by simp)
  · rw [if_neg hstatus] at h
    rcases hdd : getDataDict jd with e | d
    · simp only [hdd] at h
      exact Except.noConfusion h
    · simp only [hdd] at h
      rcases hiaqi : orEmptyDict ((d.get? "iaqi").getD (.dict .nil)) with e | iaqi
      · simp only [hiaqi] at h
        exact Except.noConfusion h
      · simp only [hiaqi] at h
        rcases htime : orEmptyDict ((d.get? "time").getD (.dict .nil)) with e | t
        · simp only [htime] at h
          exact Except.noConfusion h
        · simp only [htime] at h
          rcases hcity : orEmptyDict ((d.get? "city").getD (.dict .nil)) with e | cinfo
          · simp only [hcity] at h
            exact Except.noConfusion h
          · simp only [hcity] at h
            rcases hband : aqi_band ((d.get? "aqi").getD .none) with e | band
            · simp only [hband] at h
              exact Except.noConfusion h
            · simp only [hband] at h
              have hrec : _ = rec := Option.some.inj (Except.ok.inj h)
              subst hrec
              refine ⟨?_, ?_, ?_⟩ <;>
                simp [tsValOf, cinfoOf, hdd, orEmptyDictD_eq _ _ htime,
                  orEmptyDictD_eq _ _ hcity]

/-- C2 counterexample: two records with unparsable source timestamps are
still normalized and carry the NaT marker, yet the log merge does key them:
their `(city, NaT)` keys compare equal in `drop_duplicates`, so the second
record is deduplicated away rather than being excluded from the keying. -/
theorem invalid_marker_dedup_counterexample :
    normalize_record jBadTs1 "X" = .ok (some rowBadTs1) ∧
    normalize_record jBadTs2 "X" = .ok (some rowBadTs2) ∧
    rowBadTs1.observed_at_utc = Option.none ∧
    rowBadTs2.observed_at_utc = Option.none ∧
    rowBadTs1 ≠ rowBadTs2 ∧
    merge (some [rowBadTs1]) [rowBadTs2] = [rowBadTs1] := by decide

/-- C2 (amended): a record whose source timestamp fails to parse is still
normalized and carries the explicit NaT marker (`errors="coerce"` yields
NaT on failure, never a clock reading); but such records are NOT excluded
from merge deduplication keying — the NaT marker is an ordinary key value,
so same-city records with invalid timestamps deduplicate against each
other. -/
theorem invalid_marker_in_dedup_keying :
    (∀ (j : PyVal) (lbl : String) (rec : Row),
        normalize_record j lbl = .ok (some rec) →
        pdToDatetime (tsValOf j) = Option.none →
        rec.observed_at_utc = Option.none) ∧
    (∀ s : String, parseTs s = Option.none → pdToDatetime (.str s) = Option.none) ∧
    (∀ r1 r2 : Row, r1.city = r2.city →
        r1.observed_at_utc = Option.none → r2.observed_at_utc = Option.none →
        merge (some [r1]) [r2] = [r1]) := by
  refine ⟨?_, ?_, ?_⟩
  · intro j lbl rec h hts
    rw [(normalize_fields j lbl rec h).1, hts]
  · intro s h
    simp [pdToDatetime, h]
  · intro r1 r2 h1 h2 h3
    have hkey : rowKey r2 = rowKey r1 := by
      simp [rowKey, h2, h3, h1]
    show dedupByKey ([r1] ++ [r2]) [] = [r1]
    simp [dedupByKey, hkey]

/-- C2 witness: the amended statement instantiated on the concrete
unparsable-timestamp payloads. -/
theorem invalid_marker_in_dedup_keying_witness :
    rowBadTs1.observed_at_utc = Option.none ∧
    pdToDatetime (.str "not a timestamp") = Option.none ∧
    merge (some [rowBadTs1]) [rowBadTs2] = [rowBadTs1] :=
  ⟨invalid_marker_in_dedup_keying.1 jBadTs1 "X" rowBadTs1 (by decide) (by decide),
   invalid_marker_in_dedup_keying.2.1 "not a timestamp" (by decide),
   invalid_marker_in_dedup_keying.2.2 rowBadTs1 rowBadTs2 (by decide) (by decide) (by decide)⟩

/-- C5: after the coordinate backfill of `main` (lines 87-88) both
coordinates of every record are present in the `pd.notna` sense, and a
record normalized from a geo-less response under a target configured at
`(-31.95, 115.86)` carries exactly the configured coordinates. -/
theorem backfill_coords :
    (∀ (rec : Row) (la lo : ℚ),
        pyNotna (backfill rec la lo).lat = true ∧
        pyNotna (backfill rec la lo).lon = true) ∧
    (∀ (j : PyVal) (lbl : String) (rec : Row),
        normalize_record j lbl = .ok (some rec) →
        geoOf (cinfoOf j) = (.none, .none) →
        (backfill rec (-31.95) 115.86).lat = .num (-31.95) ∧
        (backfill rec (-31.95) 115.86).lon = .num 115.86) := by
  constructor
  · intro rec la lo
    constructor <;>
      · simp only [backfill]
        split_ifs with hh
        · exact hh
        · rfl
  · intro j lbl rec h hgeo
    have hf := normalize_fields j lbl rec h
    have hlat : rec.lat = PyVal.none := by rw [hf.2.1, hgeo]
    have hlon : rec.lon = PyVal.none := by rw [hf.2.2, hgeo]
    constructor <;> simp [backfill, hlat, hlon, pyNotna, pyIsNa]

/-- C5 witness: the geo-less payload `jNoGeo` under the Perth target's
configured coordinates. -/
theorem backfill_coords_witness :
    (backfill rowNoGeo (-31.95) 115.86).lat = .num (-31.95) ∧
    (backfill rowNoGeo (-31.95) 115.86).lon = .num 115.86 ∧
    pyNotna (backfill rowNoGeo (-31.95) 115.86).lat = true :=
  ⟨(backfill_coords.2 jNoGeo "Perth" rowNoGeo (by decide) (by decide)).1,
   (backfill_coords.2 jNoGeo "Perth" rowNoGeo (by decide) (by decide)).2,
   (backfill_coords.1 rowNoGeo (-31.95) 115.86).1⟩

/-- C8: a per-target fetch failure (the oracle `.error`, i.e. a non-success
HTTP status or network error raised by `requests`) is caught by the
per-target handler and contributes neither a record nor a URL; the run is
exactly the run over the remaining targets — it is never aborted. -/
theorem fetch_failure_isolated (token : String)
    (pre post : List (Target × Except String PyVal)) (t : Target) (e : String) :
    runTargets token (pre ++ (t, .error e) :: post) = runTargets token (pre ++ post) := by
  simp [runTargets, List.foldl_append, List.foldl_cons, stepTarget]

theorem stepTarget_urls (token : String) (acc : List Row × List String)
    (t : Target × Except String PyVal) :
    (stepTarget token acc t).2 = acc.2 ∨
    (stepTarget token acc t).2 = acc.2 ++ [mkUrl t.1.lat t.1.lon token] := by
  rcases t with ⟨tg, out⟩
  cases out with
  | error e => exact Or.inl rfl
  | ok js =>
    simp only [stepTarget]
    cases normalize_record js tg.name with
    | error e => exact Or.inr rfl
    | ok o =>
      cases o with
      | none => exact Or.inr rfl
      | some rec => exact Or.inr rfl

theorem runTargets_urls_shape (token : String)
    (ts : List (Target × Except String PyVal)) :
    ∀ (acc : List Row × List String),
      (∀ u ∈ acc.2, ∃ la lo : ℚ, u = mkUrl la lo token) →
      ∀ u ∈ (ts.foldl (stepTarget token) acc).2, ∃ la lo : ℚ, u = mkUrl la lo token := by
  induction ts with
  | nil => exact fun acc hacc => hacc
  | cons t rest ih =>
    intro acc hacc
    simp only [List.foldl_cons]
    apply ih
    intro u hu
    rcases stepTarget_urls token acc t with he | he <;> rw [he] at hu
    · exact hacc u hu
    · rcases List.mem_append.mp hu with hu | hu
      · exact hacc u hu
      · exact ⟨t.1.lat, t.1.lon, List.mem_singleton.mp hu⟩

/-- C10: every URL in the run's provenance list is a `fetch_geo` URL whose
query string carries the authorization token verbatim, and the provenance
file content `"\n".join(urls)` therefore embeds the token on disk whenever
at least one fetch succeeded. -/
theorem provenance_embeds_token (token : String)
    (ts : List (Target × Except String PyVal)) :
    (∀ u ∈ (runTargets token ts).2, ∃ la lo : ℚ,
        u = mkUrl la lo token ∧ ∃ p, u = p ++ ("?token=" ++ token)) ∧
    ((runTargets token ts).2 = [] ∨
      ∃ p q, joinLines ((runTargets token ts).2) = p ++ ("?token=" ++ token) ++ q) := by
  have hshape : ∀ u ∈ (runTargets token ts).2, ∃ la lo : ℚ, u = mkUrl la lo token :=
    runTargets_urls_shape token ts ([], []) (by simp)
  have hsuffix : ∀ u ∈ (runTargets token ts).2, ∃ p, u = p ++ ("?token=" ++ token) := by
    intro u hu
    rcases hshape u hu with ⟨la, lo, rfl⟩
    exact ⟨"https://api.waqi.info/feed/geo:" ++ toString la ++ ";" ++ toString lo ++ "/", rfl⟩
  constructor
  · intro u hu
    rcases hshape u hu with ⟨la, lo, he⟩
    exact ⟨la, lo, he, by rcases hsuffix u hu with ⟨p, hp⟩; exact ⟨p, hp⟩⟩
  · cases hurls : (runTargets token ts).2 with
    | nil => exact Or.inl rfl
    | cons u0 rest =>
      right
      have hu0 : u0 ∈ (runTargets token ts).2 := by rw [hurls]; exact List.mem_cons_self _ _
      rcases hsuffix u0 hu0 with ⟨p, hp⟩
      cases rest with
      | nil => exact ⟨p, "", by simp [joinLines, hp]⟩
      | cons u1 rest2 =>
        refine ⟨p, "\n" ++ joinLines (u1 :: rest2), ?_⟩
        show joinLines (u0 :: u1 :: rest2) = _
        rw [joinLines, hp, String.append_assoc, String.append_assoc]
        simp

theorem parseEntry_bad (item : String) (hnb : strTrim item ≠ "")
    (hbad : ∀ (name coords a b : String) (la lo : ℚ),
      strSplitOn ':' item = [name, coords] → strSplitOn ',' coords = [a, b] →
      parseFloat a = some la → parseFloat b = some lo → False) :
    ∃ e, parseEntry item = .error e := by
  simp only [parseEntry, if_neg hnb]
  rcases hsp : strSplitOn ':' item with _ | ⟨name, _ | ⟨coords, _ | ⟨x, xs⟩⟩⟩
  · exact ⟨"ValueError: wrong number of values to unpack", by simp [hsp]⟩
  · exact ⟨"ValueError: wrong number of values to unpack", by simp [hsp]⟩
  · rcases hsp2 : strSplitOn ',' coords with _ | ⟨a, _ | ⟨b, _ | ⟨y, ys⟩⟩⟩
    · exact ⟨"ValueError: wrong number of values to unpack", by simp [hsp, hsp2]⟩
    · exact ⟨"ValueError: wrong number of values to unpack", by simp [hsp, hsp2]⟩
    · rcases hfa : parseFloat a with _ | la
      · exact ⟨"ValueError: could not convert string to float", by simp [hsp, hsp2, hfa]⟩
      · rcases hfb : parseFloat b with _ | lo
        · exact ⟨"ValueError: could not convert string to float", by simp [hsp, hsp2, hfa, hfb]⟩
        · exact (hbad name coords a b la lo hsp hsp2 hfa hfb).elim
    · exact ⟨"ValueError: wrong number of values to unpack", by simp [hsp, hsp2]⟩
  · exact ⟨"ValueError: wrong number of values to unpack", by simp [hsp]⟩

theorem parseEntries_error (items : List String) :
    ∀ (acc : List (String × ℚ × ℚ)) (it : String), it ∈ items →
      (∃ e0, parseEntry it = .error e0) →
      ∃ e, parseEntries items acc = .error e := by
  induction items with
  | nil =>
    intro acc it hit _
    cases hit
  | cons x rest ih =>
    rintro acc it hit ⟨e0, he⟩
    rcases List.mem_cons.mp hit with rfl | hmem
    · exact ⟨e0, by simp [parseEntries, he]⟩
    · rcases hx : parseEntry x with ex | ox
      · exact ⟨ex, by simp [parseEntries, hx]⟩
      · rcases ox with _ | ⟨n, la, lo⟩
        · rcases ih acc it hmem ⟨e0, he⟩ with ⟨e, hee⟩
          exact ⟨e, by simp [parseEntries, hx, hee]⟩
        · rcases ih (upsert acc n (la, lo)) it hmem ⟨e0, he⟩ with ⟨e, hee⟩
          exact ⟨e, by simp [parseEntries, hx, hee]⟩

theorem parseEntries_append (xs : List String) :
    ∀ (ys : List String) (acc : List (String × ℚ × ℚ)),
      parseEntries (xs ++ ys) acc =
        match parseEntries xs acc with
        | .error e => .error e
        | .ok acc2 => parseEntries ys acc2 := by
  induction xs with
  | nil => intro ys acc; rfl
  | cons x rest ih =>
    intro ys acc
    simp only [List.cons_append, parseEntries]
    rcases hx : parseEntry x with ex | ox
    · rfl
    · rcases ox with _ | ⟨n, la, lo⟩
      · exact ih ys acc
      · exact ih ys (upsert acc n (la, lo))

theorem find?_replace (m : List (String × ℚ × ℚ)) (k : String) (v : ℚ × ℚ)
    (h : m.any (fun p => p.1 == k) = true) :
    ((m.map (fun p => if p.1 == k then (k, v) else p)).find? (fun p => p.1 == k)).map
      (fun p => p.2) = some v := by
  induction m with
  | nil => simp at h
  | cons p rest ih =>
    by_cases hp : (p.1 == k) = true
    · simp only [List.map_cons, if_pos hp]
      rw [List.find?_cons_of_pos _ (by simp)]
      rfl
    · simp only [List.map_cons, if_neg hp]
      rw [List.find?_cons_of_neg _ (by simp [hp])]
      apply ih
      simp only [List.any_cons, Bool.or_eq_true] at h
      rcases h with h | h
      · exact absurd h hp
      · exact h

theorem find?_upsert (m : List (String × ℚ × ℚ)) (k : String) (v : ℚ × ℚ) :
    ((upsert m k v).find? (fun p => p.1 == k)).map (fun p => p.2) = some v := by
  unfold upsert
  split_ifs with h
  · exact find?_replace m k v h
  · have hnone : m.find? (fun p => p.1 == k) = Option.none := by
      rw [List.find?_eq_none]
      intro p hp
      simp only [List.any_eq_true, not_exists, not_and] at h
      exact fun hq => h p hp hq
    rw [List.find?_append, hnone]
    simp

theorem parseEntries_last_wins (items : List String)
    (acc m : List (String × ℚ × ℚ)) (it name : String) (la lo : ℚ)
    (hentry : parseEntry it = .ok (some (name, la, lo)))
    (hok : parseEntries (items ++ [it]) acc = .ok m) :
    (m.find? (fun p => p.1 == name)).map (fun p => p.2) = some (la, lo) := by
  rw [parseEntries_append] at hok
  rcases hacc2 : parseEntries items acc with e | acc2
  · rw [hacc2] at hok
    exact Except.noConfusion hok
  · rw [hacc2] at hok
    simp only [parseEntries, hentry] at hok
    have hm : upsert acc2 name (la, lo) = m := Except.ok.inj hok
    rw [← hm]
    exact find?_upsert acc2 name (la, lo)

/-- C9: with the configuration absent, `parse_cities` yields the single
built-in default target; a non-blank entry that does not decompose into a
name and two comma-separated float coordinates makes `parse_cities` raise
(the fatal `ValueError` at module load, before any fetch — the whole
pipeline aborts with that error); a duplicate city name is resolved
last-one-wins, the later entry's coordinates ending up in the mapping; and
on a non-empty string `parse_cities` is exactly the entry-fold over the
`;`-split items. -/
theorem parse_cities_spec :
    parse_cities Option.none = .ok defaultCities ∧
    (∀ s item : String, item ∈ strSplitOn ';' s → strTrim item ≠ "" →
      (∀ (name coords a b : String) (la lo : ℚ),
        strSplitOn ':' item = [name, coords] → strSplitOn ',' coords = [a, b] →
        parseFloat a = some la → parseFloat b = some lo → False) →
      ∃ e, parse_cities (some s) = .error e) ∧
    (∀ (env : Option String) (token : String)
        (oracle : String → ℚ → ℚ → Except String PyVal) (e : String),
      parse_cities env = .error e → runPipeline env token oracle = .error e) ∧
    (∀ (items : List String) (acc m : List (String × ℚ × ℚ)) (it name : String) (la lo : ℚ),
      parseEntry it = .ok (some (name, la, lo)) →
      parseEntries (items ++ [it]) acc = .ok m →
      (m.find? (fun p => p.1 == name)).map (fun p => p.2) = some (la, lo)) ∧
    (∀ s : String, s ≠ "" → parse_cities (some s) = parseEntries (strSplitOn ';' s) []) := by
  refine ⟨rfl, ?_, ?_, parseEntries_last_wins, ?_⟩
  · intro s item hmem hnb hbad
    have hs : s ≠ "" := by
      rintro rfl
      rw [show strSplitOn ';' "" = [""] from rfl] at hmem
      exact hnb (by rw [List.mem_singleton.mp hmem]; decide)
    rcases parseEntry_bad item hnb hbad with ⟨e0, he⟩
    rcases parseEntries_error (strSplitOn ';' s) [] item hmem ⟨e0, he⟩ with ⟨e, hee⟩
    refine ⟨e, ?_⟩
    simp [parse_cities, hs, hee]
  · intro env token oracle e h
    simp [runPipeline, h]
  · intro s hs
    simp [parse_cities, hs]

/-- C9 witness: the spec conjuncts instantiated — a colon-less entry
aborts the whole pipeline before any fetch, `"A:1,2;A:5,6"`-style duplicate
names resolve to the later coordinates, and a concrete non-empty
configuration takes the entry-fold path. -/
theorem parse_cities_spec_witness :
    (∃ e, parse_cities (some "Perth") = .error e) ∧
    runPipeline (some "Perth:oops") "T" (fun _ _ _ => .error "net")
        = .error "ValueError: wrong number of values to unpack" ∧
    (([("A", (5 : ℚ), (6 : ℚ))].find? (fun p => p.1 == "A")).map (fun p => p.2)
        = some (5, 6)) ∧
    parse_cities (some "A:1,2") = parseEntries (strSplitOn ';' "A:1,2") [] :=
  ⟨parse_cities_spec.2.1 "Perth" "Perth" (by decide) (by decide)
      (by
        intro name coords a b la lo h1 _ _ _
        rw [show strSplitOn ':' "Perth" = ["Perth"] from by decide] at h1
        simp at h1),
   parse_cities_spec.2.2.1 (some "Perth:oops") "T" (fun _ _ _ => .error "net")
      "ValueError: wrong number of values to unpack" (by decide),
   parse_cities_spec.2.2.2.1 ["A:1,2"] [] [("A", 5, 6)] "A:5,6" "A" 5 6
      (by decide) (by decide),
   parse_cities_spec.2.2.2.2 "A:1,2" (by decide)⟩

/-- C10 witness: the provenance statement instantiated on a run with one
successful fetch and the token `"SECRET"`. -/
theorem provenance_embeds_token_witness :
    ∃ la lo : ℚ, mkUrl (-31.95) 115.86 "SECRET" = mkUrl la lo "SECRET" ∧
      ∃ p, mkUrl (-31.95) 115.86 "SECRET" = p ++ ("?token=" ++ "SECRET") := by
  have h : (runTargets "SECRET" tsW10).2 = [mkUrl (-31.95) 115.86 "SECRET"] := rfl
  exact (provenance_embeds_token "SECRET" tsW10).1 (mkUrl (-31.95) 115.86 "SECRET")
    (by rw [h]; exact List.mem_singleton.mpr rfl)
